import Mathlib

/-!
Verification of the QMS record-intake app (src/QMS_app.py) against its
natural-language specification.

Strings are embedded as `List Char`; Python string operations used by the
program (`startswith`, `split("-")[-1]`, `int(...)`, `f"{n:03d}"`,
`lower()`, truthiness) are given executable Lean counterparts below, and
the program's functions are translated on top of them.
-/

/-- A cell of a sheet row: a Python string, embedded as a list of characters. -/
abbrev Cell := List Char

/-- A sheet row: an ordered list of string cells. -/
abbrev Row := List Cell

/-- A snapshot of a sheet: all rows, header first, in insertion order. -/
abbrev Snapshot := List Row

/-- Coerce a Lean string literal to the `List Char` embedding. -/
def str (s : String) : Cell := s.data

/-- Python `s.startswith(pat)`: `startsWith s pat` is `true` iff `pat` is a
prefix of `s`. -/
def startsWith : Cell → Cell → Bool
  | _, [] => true
  | [], _ :: _ => false
  | c :: cs, p :: ps => c == p && startsWith cs ps

/-- Python `s.split(sep)[-1]`: the segment of `s` after the last occurrence
of `sep` (the whole string when `sep` does not occur). -/
def lastSeg (sep : Char) (cs : Cell) : Cell :=
  (cs.reverse.takeWhile (fun c => c != sep)).reverse

/-- Python whitespace characters stripped by `int(...)`. -/
def pyIsSpace (c : Char) : Bool :=
  c == ' ' || c == '\t' || c == '\n' || c == '\x0d' || c == '\x0b' || c == '\x0c'

/-- Numeric value of an ASCII digit. -/
def digitVal (c : Char) : Nat := c.toNat - '0'.toNat

/-- Digits of a Python integer literal after the first digit: a sequence of
digits in which single underscores may separate digit pairs. `acc` is the
value accumulated so far; `none` on any malformed continuation. -/
def pyIntDigitsRest (acc : Nat) : Cell → Option Nat
  | [] => some acc
  | '_' :: c :: cs =>
      if c.isDigit then pyIntDigitsRest (acc * 10 + digitVal c) cs else none
  | c :: cs =>
      if c.isDigit then pyIntDigitsRest (acc * 10 + digitVal c) cs else none

/-- Python `int(s)` on an ASCII string: strip surrounding whitespace, accept
an optional sign followed by digits (single underscores allowed between
digits); `none` models the `ValueError` raised on any other input. -/
def pyIntFromStr (cs : Cell) : Option Int :=
  let t := (cs.dropWhile pyIsSpace).reverse.dropWhile pyIsSpace |>.reverse
  match t with
  | '+' :: c :: rest =>
      if c.isDigit then (pyIntDigitsRest (digitVal c) rest).map Int.ofNat else none
  | '-' :: c :: rest =>
      if c.isDigit then (pyIntDigitsRest (digitVal c) rest).map (fun n => -(Int.ofNat n : Int))
      else none
  | c :: rest =>
      if c.isDigit then (pyIntDigitsRest (digitVal c) rest).map Int.ofNat else none
  | [] => none

/-- Python `f"{n:03d}"`: decimal rendering of `n`, zero-padded on the left to
a total width of at least 3 (a sign, when present, counts toward the width). -/
def pyFormat03 (n : Int) : Cell :=
  let sign : Cell := if n < 0 then ['-'] else []
  let ds : Cell := Nat.toDigits 10 n.natAbs
  sign ++ List.replicate (3 - (sign.length + ds.length)) '0' ++ ds

/-- Embeds `generate_record_id` (src/QMS_app.py lines 43-58). The snapshot
`cached_values` stands for `get_sheet_values_cached(sheet_key)`, and `month`,
`year` stand for `datetime.now().strftime("%m")` / `("%y")`, passed
explicitly so that the function is a pure function of its inputs. The Python
body can raise `ValueError` at `int(last_id.split("-")[-1])`; the embedding
returns `none` in exactly that case. -/
def generate_record_id (cached_values : Snapshot) (pfx month year : Cell) :
    Option Cell :=
  if cached_values.length < 2 then
    some (pfx ++ str "-" ++ month ++ year ++ str "-001")
  else
    let last_row := cached_values.getLastD []
    let last_id := last_row.getD 1 []
    if startsWith last_id (pfx ++ str "-" ++ month ++ year) then
      match pyIntFromStr (lastSeg '-' last_id) with
      | some last_serial =>
          some (pfx ++ str "-" ++ month ++ year ++ str "-" ++ pyFormat03 (last_serial + 1))
      | none => none
    else
      some (pfx ++ str "-" ++ month ++ year ++ str "-" ++ pyFormat03 1)

/-- Python `s.split(sep)`: split on every occurrence of `sep`, keeping empty
segments, so the result is always nonempty. -/
def splitOnChar (sep : Char) : Cell → List Cell
  | [] => [[]]
  | c :: cs =>
    match splitOnChar sep cs with
    | [] => [[]]
    | r :: rs => if c == sep then [] :: r :: rs else (c :: r) :: rs

/-- The spec's RecordId text format `^[A-Z]{1,2}-\d{4}-\d{3}$`: splitting on
`-` yields exactly a 1-2 letter uppercase tag, 4 digits, and 3 digits
(equivalent to the regular expression, since no part may contain a dash). -/
def recordIdFormat (cs : Cell) : Bool :=
  match splitOnChar '-' cs with
  | [p, d4, d3] =>
      d3.length == 3 && d3.all Char.isDigit && d4.length == 4 && d4.all Char.isDigit
        && decide (1 ≤ p.length) && decide (p.length ≤ 2) && p.all Char.isUpper
  | _ => false

/-- Python `s.lower()` on the ASCII strings this app handles. -/
def pyLower (cs : Cell) : Cell := cs.map Char.toLower

/-- Python truthiness of a string: `true` iff nonempty. -/
def pyTruthy (cs : Cell) : Bool := !cs.isEmpty

/-- Embeds the My Submissions filter (src/QMS_app.py line 137):
`[row for row in data[1:] if user_name.lower() in [cell.lower() for cell in row]]`,
the spec's `filterMine(snapshot, submitterName)`. -/
def filterMine (data : Snapshot) (user_name : Cell) : Snapshot :=
  (data.drop 1).filter (fun row => (row.map pyLower).contains (pyLower user_name))

/-- Outcome of the Submit Complaint handler: the store after the click, the
names of blobs uploaded to the drive, and whether the required-field error
was shown. -/
structure SubmitComplaintResult where
  store : Snapshot
  uploaded : List Cell
  validation_error : Bool
deriving Repr, DecidableEq

/-- Embeds the Submit Complaint click handler (src/QMS_app.py lines 78-87):
`if product and details and contact_number:` upload the optional attachment
under `f"{complaint_id}_{uploaded_file.name}"`, append
`[timestamp, complaint_id, product, severity, contact_number, details,
user_name, file_url]`, else show the required-fields error and change
nothing. `upload_to_drive` abstracts the drive upload's returned URL. -/
def submit_complaint (store : Snapshot)
    (timestamp complaint_id product severity contact_number details user_name : Cell)
    (uploaded_file : Option Cell) (upload_to_drive : Cell → Cell) :
    SubmitComplaintResult :=
  if pyTruthy product && pyTruthy details && pyTruthy contact_number then
    let file_url := match uploaded_file with
      | some fname => upload_to_drive (complaint_id ++ str "_" ++ fname)
      | none => str ""
    { store := store ++
        [[timestamp, complaint_id, product, severity, contact_number, details,
          user_name, file_url]],
      uploaded := match uploaded_file with
        | some fname => [complaint_id ++ str "_" ++ fname]
        | none => [],
      validation_error := false }
  else
    { store := store, uploaded := [], validation_error := true }

/-! ## Helper lemmas on the string operations -/

/-- `startsWith` holds between a concatenation and its left part. -/
theorem startsWith_append_left (a b : Cell) : startsWith (a ++ b) a = true := by
  induction a with
  | nil => cases b <;> rfl
  | cons c cs ih => simp [startsWith, ih]

/-- `startsWith` ignores a shared leading part. -/
theorem startsWith_append_cancel (a s p : Cell) :
    startsWith (a ++ s) (a ++ p) = startsWith s p := by
  induction a with
  | nil => rfl
  | cons c cs ih => simp [startsWith, ih]

/-- Two patterns of the same length that differ are never both prefixes:
`startsWith` fails on the concatenation. -/
theorem startsWith_ne_of_length_eq (a b r : Cell) (hl : a.length = b.length)
    (hne : a ≠ b) : startsWith (a ++ r) b = false := by
  induction a generalizing b with
  | nil =>
    cases b with
    | nil => exact absurd rfl hne
    | cons y ys => simp at hl
  | cons x xs ih =>
    cases b with
    | nil => simp at hl
    | cons y ys =>
      by_cases hxy : x = y
      · subst hxy
        have hne' : xs ≠ ys := fun h => hne (by rw [h])
        simp [startsWith, ih ys (by simpa using hl) hne']
      · simp [startsWith, hxy]

/-- Identifiers with dash-free tags: if the tags differ, the dash-delimited
pattern is not a prefix. -/
theorem startsWith_dashfree_ne (a b r q : Cell)
    (ha : '-' ∉ a) (hb : '-' ∉ b) (hne : a ≠ b) :
    startsWith (a ++ '-' :: r) (b ++ '-' :: q) = false := by
  induction a generalizing b with
  | nil =>
    cases b with
    | nil => exact absurd rfl hne
    | cons y ys =>
      have hy : y ≠ '-' := fun h => hb (by simp [h])
      simp [startsWith, Ne.symm hy]
  | cons x xs ih =>
    have hx : x ≠ '-' := fun h => ha (by simp [h])
    cases b with
    | nil => simp [startsWith, hx]
    | cons y ys =>
      by_cases hxy : x = y
      · subst hxy
        have hne' : xs ≠ ys := fun h => hne (by rw [h])
        have ha' : '-' ∉ xs := fun h => ha (by simp [h])
        have hb' : '-' ∉ ys := fun h => hb (by simp [h])
        simp [startsWith, ih ys ha' hb' hne']
      · simp [startsWith, hxy]

/-- `takeWhile` passes over a block that wholly satisfies the predicate. -/
theorem takeWhile_append_of_all (p : Char → Bool) (l₁ l₂ : Cell)
    (h : ∀ x ∈ l₁, p x = true) :
    List.takeWhile p (l₁ ++ l₂) = l₁ ++ List.takeWhile p l₂ := by
  induction l₁ with
  | nil => rfl
  | cons c cs ih =>
    have hc : p c = true := h c (by simp)
    simp [List.takeWhile, hc]
    exact ih fun x hx => h x (by simp [hx])

/-- The segment after the last separator of `a ++ sep :: s` is `s`, when `s`
is free of the separator. -/
theorem lastSeg_append (sep : Char) (a s : Cell) (hs : sep ∉ s) :
    lastSeg sep (a ++ sep :: s) = s := by
  unfold lastSeg
  have hall : ∀ x ∈ s.reverse, (x != sep) = true := by
    intro x hx
    have hxm : x ∈ s := by simpa using hx
    have hxs : x ≠ sep := fun h => hs (h ▸ hxm)
    simpa using hxs
  rw [List.reverse_append, List.reverse_cons, List.append_assoc]
  rw [takeWhile_append_of_all _ _ _ hall]
  simp [List.takeWhile]

/-- `startsWith` fails on the empty string against a nonempty pattern. -/
theorem startsWith_nil_of_ne (p : Cell) (h : p ≠ []) : startsWith [] p = false := by
  cases p with
  | nil => exact absurd rfl h
  | cons c cs => rfl

/-- Unfolding equation for `splitOnChar` on a cons cell. -/
theorem splitOnChar_cons (sep c : Char) (cs : Cell) :
    splitOnChar sep (c :: cs) =
      match splitOnChar sep cs with
      | [] => [[]]
      | r :: rs => if c == sep then [] :: r :: rs else (c :: r) :: rs := rfl

/-- `splitOnChar` always yields at least one segment. -/
theorem splitOnChar_ne_nil (sep : Char) (cs : Cell) : splitOnChar sep cs ≠ [] := by
  cases cs with
  | nil => simp [splitOnChar]
  | cons c cs =>
    rw [splitOnChar_cons]
    rcases splitOnChar sep cs with _ | ⟨r, rs⟩
    · simp
    · by_cases hc : c == sep <;> simp [hc]

/-- `splitOnChar` peels off a leading separator-free block. -/
theorem splitOnChar_append_sep (sep : Char) (a rest : Cell) (ha : sep ∉ a) :
    splitOnChar sep (a ++ sep :: rest) = a :: splitOnChar sep rest := by
  induction a with
  | nil =>
    show splitOnChar sep (sep :: rest) = [] :: splitOnChar sep rest
    rcases hsplit : splitOnChar sep rest with _ | ⟨r, rs⟩
    · exact absurd hsplit (splitOnChar_ne_nil sep rest)
    · rw [splitOnChar_cons, hsplit]
      simp
  | cons c cs ih =>
    have hc : c ≠ sep := fun h => ha (by simp [h])
    have ha' : sep ∉ cs := fun h => ha (by simp [h])
    show splitOnChar sep (c :: (cs ++ sep :: rest)) = (c :: cs) :: splitOnChar sep rest
    rw [splitOnChar_cons, ih ha']
    simp [hc]

/-- `splitOnChar` on a separator-free string gives a single segment. -/
theorem splitOnChar_no_sep (sep : Char) (s : Cell) (hs : sep ∉ s) :
    splitOnChar sep s = [s] := by
  induction s with
  | nil => rfl
  | cons c cs ih =>
    have hc : c ≠ sep := fun h => hs (by simp [h])
    have hs' : sep ∉ cs := fun h => hs (by simp [h])
    rw [splitOnChar_cons, ih hs']
    simp [hc]

/-- On a snapshot of at least two rows whose last identifier cell is the
current pattern followed by a dash and a parseable serial, the allocator
increments that serial and zero-pads it. -/
theorem generate_increment_aux (cached_values : Snapshot)
    (pfx month year serialStr : Cell) (S : Int)
    (hlen : 2 ≤ cached_values.length)
    (hid : (cached_values.getLastD []).getD 1 [] =
      pfx ++ str "-" ++ month ++ year ++ str "-" ++ serialStr)
    (hdash : '-' ∉ serialStr)
    (hparse : pyIntFromStr serialStr = some S) :
    generate_record_id cached_values pfx month year =
      some (pfx ++ str "-" ++ month ++ year ++ str "-" ++ pyFormat03 (S + 1)) := by
  have hne : ¬ cached_values.length < 2 := by omega
  have hid' : (cached_values.getLastD []).getD 1 [] =
      (pfx ++ str "-" ++ month ++ year) ++ '-' :: serialStr := by
    rw [hid]; simp only [List.append_assoc]; rfl
  have hstarts : startsWith ((cached_values.getLastD []).getD 1 [])
      (pfx ++ str "-" ++ month ++ year) = true := by
    rw [hid']; exact startsWith_append_left _ _
  have hseg : lastSeg '-' ((cached_values.getLastD []).getD 1 []) = serialStr := by
    rw [hid']; exact lastSeg_append '-' _ _ hdash
  unfold generate_record_id
  rw [if_neg hne]
  simp only [hstarts, hseg, hparse, if_true]

/-- On a snapshot of at least two rows whose last identifier cell does not
start with the current pattern, the allocator resets the serial to 001. -/
theorem generate_reset_aux (cached_values : Snapshot) (pfx month year : Cell)
    (hlen : 2 ≤ cached_values.length)
    (hsw : startsWith ((cached_values.getLastD []).getD 1 [])
      (pfx ++ str "-" ++ month ++ year) = false) :
    generate_record_id cached_values pfx month year =
      some (pfx ++ str "-" ++ month ++ year ++ str "-001") := by
  have hne : ¬ cached_values.length < 2 := by omega
  unfold generate_record_id
  rw [if_neg hne]
  simp only [hsw, if_false, Bool.false_eq_true]
  simp only [List.append_assoc]
  rfl

/-- Claim C2: an empty or header-only snapshot (fewer than 2 rows) allocates
`{prefix}-{MM}{YY}-001`. -/
theorem generate_record_id_empty (cached_values : Snapshot) (pfx month year : Cell)
    (h : cached_values.length < 2) :
    generate_record_id cached_values pfx month year =
      some (pfx ++ str "-" ++ month ++ year ++ str "-001") := by
  unfold generate_record_id
  rw [if_pos h]

/-- Witness for C2: the empty snapshot allocates `C-0325-001` in March 2025. -/
theorem generate_record_id_empty_witness :
    generate_record_id [] (str "C") (str "03") (str "25") =
      some (str "C" ++ str "-" ++ str "03" ++ str "25" ++ str "-001") :=
  generate_record_id_empty [] (str "C") (str "03") (str "25") (by decide)

/-- Claim C1: when the last row's identifier is exactly the current
`{prefix}-{MM}{YY}` followed by a dash and a parseable serial, the allocator
returns `{prefix}-{MM}{YY}-{S}` with the serial incremented by 1 and
zero-padded to 3 digits (`pyFormat03`, Python's `f"{n:03d}"`). -/
theorem generate_record_id_increments (cached_values : Snapshot)
    (pfx month year serialStr : Cell) (S : Int)
    (hlen : 2 ≤ cached_values.length)
    (hid : (cached_values.getLastD []).getD 1 [] =
      pfx ++ str "-" ++ month ++ year ++ str "-" ++ serialStr)
    (hdash : '-' ∉ serialStr)
    (hparse : pyIntFromStr serialStr = some S) :
    generate_record_id cached_values pfx month year =
      some (pfx ++ str "-" ++ month ++ year ++ str "-" ++ pyFormat03 (S + 1)) :=
  generate_increment_aux cached_values pfx month year serialStr S hlen hid hdash hparse

/-- Witness for C1: last identifier `C-0325-007` in March 2025 yields
`C-0325-008`. -/
theorem generate_record_id_increments_witness :
    generate_record_id [[str "h"], [str "t", str "C-0325-007"]]
      (str "C") (str "03") (str "25") =
      some (str "C" ++ str "-" ++ str "03" ++ str "25" ++ str "-" ++ pyFormat03 (7 + 1)) :=
  generate_record_id_increments [[str "h"], [str "t", str "C-0325-007"]]
    (str "C") (str "03") (str "25") (str "007") 7
    (by decide) (by decide) (by decide) (by decide)

/-- Claim C3: when the last row's identifier carries a different dash-free
tag, or the same tag with a different month+year block of the same length,
the allocator resets the serial and returns `{prefix}-{MM}{YY}-001`. -/
theorem generate_record_id_resets (cached_values : Snapshot)
    (pfx month year pfx2 my2 s2 : Cell)
    (hlen : 2 ≤ cached_values.length)
    (hid : (cached_values.getLastD []).getD 1 [] =
      pfx2 ++ str "-" ++ my2 ++ str "-" ++ s2)
    (hpfx : '-' ∉ pfx) (hpfx2 : '-' ∉ pfx2)
    (hdiff : pfx2 ≠ pfx ∨ (my2.length = (month ++ year).length ∧ my2 ≠ month ++ year)) :
    generate_record_id cached_values pfx month year =
      some (pfx ++ str "-" ++ month ++ year ++ str "-001") := by
  have hid' : (cached_values.getLastD []).getD 1 [] =
      pfx2 ++ '-' :: (my2 ++ '-' :: s2) := by
    rw [hid]; simp only [List.append_assoc]; rfl
  have hpat : pfx ++ str "-" ++ month ++ year = pfx ++ '-' :: (month ++ year) := by
    simp only [List.append_assoc]; rfl
  have hsw : startsWith ((cached_values.getLastD []).getD 1 [])
      (pfx ++ str "-" ++ month ++ year) = false := by
    rw [hid', hpat]
    by_cases hp : pfx2 = pfx
    · subst hp
      rcases hdiff with hne | ⟨hlen2, hne2⟩
      · exact absurd rfl hne
      · rw [startsWith_append_cancel pfx2 ('-' :: (my2 ++ '-' :: s2)) ('-' :: (month ++ year))]
        simp only [startsWith]
        rw [startsWith_ne_of_length_eq my2 (month ++ year) ('-' :: s2) hlen2 hne2]
        simp
    · exact startsWith_dashfree_ne pfx2 pfx (my2 ++ '-' :: s2) (month ++ year) hpfx2 hpfx hp
  exact generate_reset_aux cached_values pfx month year hlen hsw

/-- Witness for C3: last identifier `C-0225-007` (February) resets to
`C-0325-001` in March 2025. -/
theorem generate_record_id_resets_witness :
    generate_record_id [[str "h"], [str "t", str "C-0225-007"]]
      (str "C") (str "03") (str "25") =
      some (str "C" ++ str "-" ++ str "03" ++ str "25" ++ str "-001") :=
  generate_record_id_resets [[str "h"], [str "t", str "C-0225-007"]]
    (str "C") (str "03") (str "25") (str "C") (str "0225") (str "007")
    (by decide) (by decide) (by decide) (by decide)
    (Or.inr (by constructor <;> decide))

/-- Claim C4: when the last row's identifier is the current pattern with
serial `999`, the allocator returns `{prefix}-{MM}{YY}-1000`, whose serial
part has 4 digits, so the RecordId text format
`^[A-Z]{1,2}-\d{4}-\d{3}$` is violated. -/
theorem generate_record_id_overflow (cached_values : Snapshot)
    (pfx month year : Cell)
    (hlen : 2 ≤ cached_values.length)
    (hid : (cached_values.getLastD []).getD 1 [] =
      pfx ++ str "-" ++ month ++ year ++ str "-" ++ str "999")
    (hpfx : '-' ∉ pfx) (hmonth : '-' ∉ month) (hyear : '-' ∉ year) :
    generate_record_id cached_values pfx month year =
      some (pfx ++ str "-" ++ month ++ year ++ str "-" ++ str "1000")
    ∧ recordIdFormat (pfx ++ str "-" ++ month ++ year ++ str "-" ++ str "1000") = false := by
  constructor
  · exact generate_increment_aux cached_values pfx month year (str "999") 999 hlen hid
      (by decide) (by decide)
  · have hmy : '-' ∉ month ++ year := by
      intro h
      rcases List.mem_append.mp h with h' | h'
      · exact hmonth h'
      · exact hyear h'
    have hshape : pfx ++ str "-" ++ month ++ year ++ str "-" ++ str "1000" =
        pfx ++ '-' :: ((month ++ year) ++ '-' :: str "1000") := by
      simp only [List.append_assoc]; rfl
    rw [hshape]
    unfold recordIdFormat
    rw [splitOnChar_append_sep '-' pfx _ hpfx,
        splitOnChar_append_sep '-' (month ++ year) _ hmy,
        splitOnChar_no_sep '-' (str "1000") (by decide)]
    have h3 : ((str "1000").length == 3) = false := by decide
    simp [h3]

/-- Witness for C4: last identifier `C-0325-999` yields `C-0325-1000`, which
fails the RecordId format. -/
theorem generate_record_id_overflow_witness :
    generate_record_id [[str "h"], [str "t", str "C-0325-999"]]
      (str "C") (str "03") (str "25") =
      some (str "C" ++ str "-" ++ str "03" ++ str "25" ++ str "-" ++ str "1000")
    ∧ recordIdFormat (str "C" ++ str "-" ++ str "03" ++ str "25" ++ str "-" ++ str "1000") = false :=
  generate_record_id_overflow [[str "h"], [str "t", str "C-0325-999"]]
    (str "C") (str "03") (str "25")
    (by decide) (by decide) (by decide) (by decide) (by decide)

/-- Claim C5: the allocator is a deterministic (pure) function of the
snapshot, the tag, and the current month and year: two calls on the same
inputs return the same identifier. -/
theorem generate_record_id_deterministic (cached_values : Snapshot)
    (pfx month year : Cell) (r₁ r₂ : Option Cell)
    (h₁ : generate_record_id cached_values pfx month year = r₁)
    (h₂ : generate_record_id cached_values pfx month year = r₂) : r₁ = r₂ :=
  h₁ ▸ h₂ ▸ rfl

/-- Witness for C5: two calls on the empty snapshot both return
`C-0325-001`. -/
theorem generate_record_id_deterministic_witness :
    (some (str "C" ++ str "-" ++ str "03" ++ str "25" ++ str "-001") : Option Cell) =
      some (str "C" ++ str "-" ++ str "03" ++ str "25" ++ str "-001") :=
  generate_record_id_deterministic [] (str "C") (str "03") (str "25") _ _ rfl rfl

/-- Claim C9: the allocator is not total. On a snapshot whose last
identifier starts with the current `{prefix}-{MM}{YY}` but whose segment
after the final dash is not a decimal integer, `int(...)` raises, which the
embedding models as `none`. -/
theorem generate_record_id_nonnumeric_serial :
    generate_record_id [[str "h"], [str "t", str "C-0325-abc"]]
      (str "C") (str "03") (str "25") = none := by decide

/-- Claim C8: when the last row's identifier carries a strictly longer
dash-free tag extending the current one (e.g. `CC-0325-005` while allocating
for tag `C`), the dash in the pattern prevents a match, so the allocator
resets to `{prefix}-{MM}{YY}-001` instead of incrementing that serial. -/
theorem generate_record_id_longer_tag (cached_values : Snapshot)
    (pfx ext month year s2 : Cell)
    (hlen : 2 ≤ cached_values.length)
    (hid : (cached_values.getLastD []).getD 1 [] =
      (pfx ++ ext) ++ str "-" ++ month ++ year ++ str "-" ++ s2)
    (hext : ext ≠ []) (hdash : '-' ∉ pfx ++ ext) :
    generate_record_id cached_values pfx month year =
      some (pfx ++ str "-" ++ month ++ year ++ str "-001") := by
  have hpfx : '-' ∉ pfx := fun h => hdash (List.mem_append_left _ h)
  have hne : pfx ++ ext ≠ pfx := by
    intro h
    have hl := congrArg List.length h
    rw [List.length_append] at hl
    have : ext.length = 0 := by omega
    exact hext (List.length_eq_zero.mp this)
  have hid' : (cached_values.getLastD []).getD 1 [] =
      (pfx ++ ext) ++ '-' :: ((month ++ year) ++ '-' :: s2) := by
    rw [hid]; simp only [List.append_assoc]; rfl
  have hpat : pfx ++ str "-" ++ month ++ year = pfx ++ '-' :: (month ++ year) := by
    simp only [List.append_assoc]; rfl
  have hsw : startsWith ((cached_values.getLastD []).getD 1 [])
      (pfx ++ str "-" ++ month ++ year) = false := by
    rw [hid', hpat]
    exact startsWith_dashfree_ne (pfx ++ ext) pfx ((month ++ year) ++ '-' :: s2)
      (month ++ year) hdash hpfx hne
  exact generate_reset_aux cached_values pfx month year hlen hsw

/-- Witness for C8: last identifier `CC-0325-005` while allocating for tag
`C` in March 2025 yields `C-0325-001`. -/
theorem generate_record_id_longer_tag_witness :
    generate_record_id [[str "h"], [str "t", str "CC-0325-005"]]
      (str "C") (str "03") (str "25") =
      some (str "C" ++ str "-" ++ str "03" ++ str "25" ++ str "-001") :=
  generate_record_id_longer_tag [[str "h"], [str "t", str "CC-0325-005"]]
    (str "C") (str "C") (str "03") (str "25") (str "005")
    (by decide) (by decide) (by decide) (by decide)

/-- Claim C10: when the snapshot has at least two rows but the last row has
fewer than two cells, the identifier is read as the empty string, the match
fails, and the allocator returns `{prefix}-{MM}{YY}-001` without failing. -/
theorem generate_record_id_short_last_row (cached_values : Snapshot)
    (pfx month year : Cell)
    (hlen : 2 ≤ cached_values.length)
    (hrow : (cached_values.getLastD []).length < 2) :
    generate_record_id cached_values pfx month year =
      some (pfx ++ str "-" ++ month ++ year ++ str "-001") := by
  have hid : (cached_values.getLastD []).getD 1 [] = [] :=
    List.getD_eq_default _ _ (by omega)
  have hpat_ne : pfx ++ str "-" ++ month ++ year ≠ [] := by
    intro h
    have hl := congrArg List.length h
    simp [List.length_append, str] at hl
  have hsw : startsWith ((cached_values.getLastD []).getD 1 [])
      (pfx ++ str "-" ++ month ++ year) = false := by
    rw [hid]
    exact startsWith_nil_of_ne _ hpat_ne
  exact generate_reset_aux cached_values pfx month year hlen hsw

/-- Witness for C10: a last row with a single cell still allocates
`C-0325-001`. -/
theorem generate_record_id_short_last_row_witness :
    generate_record_id [[str "h"], [str "only-one-cell"]]
      (str "C") (str "03") (str "25") =
      some (str "C" ++ str "-" ++ str "03" ++ str "25" ++ str "-001") :=
  generate_record_id_short_last_row [[str "h"], [str "only-one-cell"]]
    (str "C") (str "03") (str "25") (by decide) (by decide)

/-- Claim C6: `filterMine` returns exactly the non-header rows in which the
submitter name appears, case-insensitively, as an exact match of some whole
cell; when no row matches it returns the empty list, not an error. -/
theorem filterMine_spec (data : Snapshot) (user_name : Cell) :
    (∀ row, row ∈ filterMine data user_name ↔
      row ∈ data.drop 1 ∧ ∃ c ∈ row, pyLower c = pyLower user_name)
    ∧ ((∀ row ∈ data.drop 1, ∀ c ∈ row, pyLower c ≠ pyLower user_name) →
      filterMine data user_name = []) := by
  have hmem : ∀ row, row ∈ filterMine data user_name ↔
      row ∈ data.drop 1 ∧ ∃ c ∈ row, pyLower c = pyLower user_name := by
    intro row
    unfold filterMine
    rw [List.mem_filter]
    simp [List.elem_iff, List.mem_map, eq_comm]
  refine ⟨hmem, fun h => ?_⟩
  rw [List.eq_nil_iff_forall_not_mem]
  intro row hrow
  rw [hmem row] at hrow
  obtain ⟨hr, c, hc, hcl⟩ := hrow
  exact h row hr c hc hcl

/-- Witness for C6: no cell of the one data row matches `bob`, so the filter
returns the empty list. -/
theorem filterMine_spec_witness :
    filterMine [[str "Name"], [str "x", str "Alice"]] (str "bob") = [] :=
  (filterMine_spec [[str "Name"], [str "x", str "Alice"]] (str "bob")).2 (by decide)

/-- Claim C7: the Submit Complaint handler reports the required-field error
exactly when product, details, or contact number is empty — severity never
participates — and in that case the store gains no row and no blob is
uploaded. -/
theorem submit_complaint_validation (store : Snapshot)
    (timestamp complaint_id product severity contact_number details user_name : Cell)
    (uploaded_file : Option Cell) (upload_to_drive : Cell → Cell) :
    ((submit_complaint store timestamp complaint_id product severity contact_number
        details user_name uploaded_file upload_to_drive).validation_error = true ↔
      (product = [] ∨ details = [] ∨ contact_number = []))
    ∧ ((submit_complaint store timestamp complaint_id product severity contact_number
        details user_name uploaded_file upload_to_drive).validation_error = true →
      (submit_complaint store timestamp complaint_id product severity contact_number
        details user_name uploaded_file upload_to_drive).store = store
      ∧ (submit_complaint store timestamp complaint_id product severity contact_number
        details user_name uploaded_file upload_to_drive).uploaded = []) := by
  by_cases hp : product = [] <;> by_cases hd : details = [] <;>
    by_cases hc : contact_number = [] <;>
    simp [submit_complaint, pyTruthy, hp, hd, hc, List.isEmpty_iff]

/-- Witness for C7: an empty product field with everything else filled in
triggers the required-field error. -/
theorem submit_complaint_validation_witness :
    (submit_complaint [] (str "t") (str "C-0325-001") (str "") (str "High")
        (str "123") (str "det") (str "bob") none (fun n => n)).validation_error = true :=
  (submit_complaint_validation [] (str "t") (str "C-0325-001") (str "") (str "High")
    (str "123") (str "det") (str "bob") none (fun n => n)).1.mpr (Or.inl rfl)
